import Mathlib

/-!
Verification of the gas-provider policies in
`src/packages/hardhat-core/src/internal/core/providers/gas-providers.ts`.

The providers are shallowly embedded: each provider's mutable per-instance
state is passed explicitly, the wrapped (inner) provider is an environment
record giving the outcome of each RPC call the code can issue, and the
JavaScript `number` arithmetic on gas values is modelled as exact
integer/rational arithmetic (the configured gas multiplier, a positive
rational per the configuration surface, is an explicit numerator/denominator
pair).  Thrown JavaScript `Error` values are modelled by their message
string, via `Except`.
-/

/-! ## Quantity codec

Modelled from the spec: the quantity encode/decode codec (hex-string to
arbitrary-precision integer) lives in `../jsonrpc/types/base-types`, which is
not part of the sources; the spec describes the wire format as a
non-negative integer encoded as a `0x`-prefixed minimal hexadecimal string
(a single `0x0` for zero). -/

/-- Lower-case hexadecimal digit character for a digit value `d < 16`. -/
def hexDigitChar (d : Nat) : Char :=
  if d < 10 then Char.ofNat (48 + d) else Char.ofNat (87 + d)

/-- Numeric value of a hexadecimal digit character (0 for other chars). -/
def hexDigitVal (c : Char) : Nat :=
  if 48 ≤ c.toNat ∧ c.toNat ≤ 57 then c.toNat - 48
  else if 97 ≤ c.toNat ∧ c.toNat ≤ 102 then c.toNat - 87
  else if 65 ≤ c.toNat ∧ c.toNat ≤ 70 then c.toNat - 55
  else 0

/-- Little-endian base-16 digits of `n`, with explicit fuel (the fuel `n`
itself always suffices). -/
def natToHexLE : Nat → Nat → List Nat
  | 0, _ => []
  | _ + 1, 0 => []
  | fuel + 1, n + 1 => ((n + 1) % 16) :: natToHexLE fuel ((n + 1) / 16)

/-- Value of a little-endian digit list. -/
def hexValLE : List Nat → Nat
  | [] => 0
  | d :: ds => d + 16 * hexValLE ds

/-- Hex digit characters of a quantity, most significant first. -/
def quantityHexDigits (n : Nat) : List Char :=
  if n = 0 then ['0'] else (natToHexLE n n).reverse.map hexDigitChar

/-- Modelled from the spec: `numberToRpcQuantity` — encode a non-negative
integer as a minimal `0x`-prefixed lower-case hex string. -/
def numberToRpcQuantity (n : Nat) : String :=
  ⟨'0' :: 'x' :: quantityHexDigits n⟩

/-- Big-endian fold of hex digit characters into a number. -/
def decodeCore (cs : List Char) : Nat :=
  cs.foldl (fun acc c => acc * 16 + hexDigitVal c) 0

/-- Modelled from the spec: `rpcQuantityToNumber` — decode a `0x`-prefixed
hex quantity string to a non-negative integer. -/
def rpcQuantityToNumber (s : String) : Nat :=
  match s.data with
  | '0' :: 'x' :: rest => decodeCore rest
  | cs => decodeCore cs

/-- Modelled from the spec: `rpcQuantityToBN` decodes the same wire format;
arbitrary-precision integers (`BN`) are modelled as `Nat`. -/
def rpcQuantityToBN (s : String) : Nat := rpcQuantityToNumber s

/-! ## String helpers (JavaScript `toLowerCase` and `includes`) -/

/-- ASCII lower-casing of one character, as JavaScript `toLowerCase` acts on
the ASCII range. -/
def toLowerChar (c : Char) : Char :=
  if 65 ≤ c.toNat ∧ c.toNat ≤ 90 then Char.ofNat (c.toNat + 32) else c

/-- ASCII lower-casing of a string. -/
def lowerString (s : String) : String := ⟨s.data.map toLowerChar⟩

/-- Substring occurrence test on character lists. -/
def containsSubstring (needle : List Char) : List Char → Bool
  | [] => needle.isEmpty
  | c :: rest => needle.isPrefixOf (c :: rest) || containsSubstring needle rest

/-- JavaScript `hay.includes(needle)`. -/
def jsIncludes (hay needle : String) : Bool :=
  containsSubstring needle.data hay.data

/-! ## Codec roundtrip lemmas -/

theorem hexDigitVal_hexDigitChar : ∀ d, d < 16 → hexDigitVal (hexDigitChar d) = d := by
  decide

theorem hexValLE_natToHexLE (fuel : Nat) :
    ∀ n, n ≤ fuel → hexValLE (natToHexLE fuel n) = n := by
  induction fuel with
  | zero =>
    intro n hn
    have : n = 0 := Nat.le_zero.mp hn
    subst this
    rfl
  | succ f ih =>
    intro n hn
    match n with
    | 0 => rfl
    | m + 1 =>
      have hdiv : (m + 1) / 16 ≤ f := by
        have h1 : (m + 1) / 16 < m + 1 := Nat.div_lt_self (Nat.succ_pos m) (by norm_num)
        omega
      show hexValLE (((m + 1) % 16) :: natToHexLE f ((m + 1) / 16)) = m + 1
      rw [hexValLE, ih _ hdiv]
      exact Nat.mod_add_div (m + 1) 16

theorem natToHexLE_digits_lt (fuel : Nat) :
    ∀ n, ∀ d ∈ natToHexLE fuel n, d < 16 := by
  induction fuel with
  | zero => intro n d hd; simp [natToHexLE] at hd
  | succ f ih =>
    intro n d hd
    match n with
    | 0 => simp [natToHexLE] at hd
    | m + 1 =>
      rw [natToHexLE] at hd
      rcases List.mem_cons.mp hd with h | h
      · subst h; exact Nat.mod_lt _ (by norm_num)
      · exact ih _ _ h

theorem foldl_digits (ds : List Nat) (h : ∀ d ∈ ds, d < 16) (a : Nat) :
    (ds.reverse.map hexDigitChar).foldl (fun acc c => acc * 16 + hexDigitVal c) a =
      a * 16 ^ ds.length + hexValLE ds := by
  induction ds generalizing a with
  | nil => simp [hexValLE]
  | cons d ds ih =>
    have hd : d < 16 := h d (List.mem_cons_self d ds)
    have hds : ∀ x ∈ ds, x < 16 := fun x hx => h x (List.mem_cons_of_mem d hx)
    rw [List.reverse_cons, List.map_append, List.foldl_append, ih hds a]
    simp only [List.map_cons, List.map_nil, List.foldl_cons, List.foldl_nil,
      hexDigitVal_hexDigitChar d hd, hexValLE, List.length_cons]
    ring

theorem rpcQuantity_roundtrip (n : Nat) :
    rpcQuantityToNumber (numberToRpcQuantity n) = n := by
  have hstep : rpcQuantityToNumber (numberToRpcQuantity n) =
      decodeCore (quantityHexDigits n) := rfl
  rw [hstep]
  by_cases h : n = 0
  · subst h; rfl
  · rw [quantityHexDigits, if_neg h, decodeCore,
      foldl_digits _ (natToHexLE_digits_lt n n) 0,
      hexValLE_natToHexLE n n le_rfl]
    simp

/-! ## Multiplied gas estimation (`MultipliedGasEstimationProvider`)

State: the lazily cached `_blockGasLimit` (`Option Nat`).  Environment: the
outcome of the `eth_estimateGas` call for the request at hand (a quantity
string, or the message of the thrown `Error`), and the `gasLimit` field of
the latest block returned by `eth_getBlockByNumber`. -/

instance {α β : Type} [DecidableEq α] [DecidableEq β] : DecidableEq (Except α β)
  | .ok a, .ok b =>
    if h : a = b then isTrue (by rw [h]) else isFalse (by simp [h])
  | .ok _, .error _ => isFalse (by simp)
  | .error _, .ok _ => isFalse (by simp)
  | .error a, .error b =>
    if h : a = b then isTrue (by rw [h]) else isFalse (by simp [h])

/-- The configured gas multiplier, a positive rational (`num / den`). -/
structure GasMultiplier where
  num : Nat
  den : Nat
  deriving DecidableEq

/-- Responses of the wrapped provider for one estimation request. -/
structure MGEEnv where
  estimateGas : Except String String
  latestGasLimit : String
  deriving DecidableEq

/-- Result of `_getBlockGasLimit`: the value, the updated cache, and the
number of `eth_getBlockByNumber` fetches issued (0 or 1). -/
structure BlockGasLimitResult where
  gasLimit : Nat
  state : Option Nat
  fetches : Nat
  deriving DecidableEq

/-- `MultipliedGasEstimationProvider._getBlockGasLimit`: on a cache miss,
fetch the latest block and cache `Math.floor(fetchedGasLimit * 0.95)`
(exact arithmetic: `fetched * 95 / 100`). -/
def getBlockGasLimit (env : MGEEnv) (st : Option Nat) : BlockGasLimitResult :=
  match st with
  | some v => ⟨v, some v, 0⟩
  | none =>
    let fetchedGasLimit := rpcQuantityToNumber env.latestGasLimit
    let limit := fetchedGasLimit * 95 / 100
    ⟨limit, some limit, 1⟩

/-- Result of `_getMultipliedGasEstimation`: the returned string or the
propagated error, the updated cache, and the number of block fetches. -/
structure MGEResult where
  result : Except String String
  state : Option Nat
  blockFetches : Nat
  deriving DecidableEq

/-- `MultipliedGasEstimationProvider._getMultipliedGasEstimation`.
`Math.floor(normalGas * gasMultiplier)` is the exact rational floor
`normalGas * num / den`; the clamp `gasLimit - 1` uses truncated `Nat`
subtraction (quantities are non-negative). -/
def getMultipliedGasEstimation (gasMultiplier : GasMultiplier) (env : MGEEnv)
    (st : Option Nat) : MGEResult :=
  match env.estimateGas with
  | .ok realEstimation =>
    if gasMultiplier.num = gasMultiplier.den then ⟨.ok realEstimation, st, 0⟩
    else
      let normalGas := rpcQuantityToNumber realEstimation
      let r := getBlockGasLimit env st
      let multiplied := normalGas * gasMultiplier.num / gasMultiplier.den
      let gas := if r.gasLimit < multiplied then r.gasLimit - 1 else multiplied
      ⟨.ok (numberToRpcQuantity gas), r.state, r.fetches⟩
  | .error e =>
    if jsIncludes (lowerString e) "execution error" then
      let r := getBlockGasLimit env st
      ⟨.ok (numberToRpcQuantity r.gasLimit), r.state, r.fetches⟩
    else
      ⟨.error e, st, 0⟩

/-- Whether one estimation request makes the provider consult the block gas
limit: a successful estimate with multiplier different from 1, or an
estimation failure recovered through the execution-error fallback. -/
def triggersFetch (gasMultiplier : GasMultiplier) (env : MGEEnv) : Bool :=
  match env.estimateGas with
  | .ok _ => gasMultiplier.num != gasMultiplier.den
  | .error e => jsIncludes (lowerString e) "execution error"

/-- A sequence of estimation requests against one provider instance,
threading the cached block gas limit; returns the final cache and the total
number of block fetches. -/
def runEstimations (gasMultiplier : GasMultiplier) (st : Option Nat) :
    List MGEEnv → Option Nat × Nat
  | [] => (st, 0)
  | env :: envs =>
    let r := getMultipliedGasEstimation gasMultiplier env st
    let rest := runEstimations gasMultiplier r.state envs
    (rest.1, r.blockFetches + rest.2)

/-! ## Transaction parameters

Only the gas-related optional fields the providers read or write are
modelled; each is a quantity string when present. -/

/-- The first parameter of an `eth_sendTransaction` request. -/
structure Tx where
  gas : Option String
  gasPrice : Option String
  maxFeePerGas : Option String
  maxPriorityFeePerGas : Option String
  deriving DecidableEq

/-! ## Fixed gas price provider (`FixedGasPriceProvider`) -/

/-- `FixedGasPriceProvider.request`: the transaction parameter list this
provider forwards to the wrapped provider. -/
def fixedGasPriceRequest (gasPrice : Nat) (method : String) (params : List Tx) :
    List Tx :=
  if method = "eth_sendTransaction" then
    match params with
    | [] => []
    | tx :: rest =>
      if tx.gasPrice = none ∧ tx.maxFeePerGas = none ∧ tx.maxPriorityFeePerGas = none then
        { tx with gasPrice := some (numberToRpcQuantity gasPrice) } :: rest
      else tx :: rest
  else params

/-! ## Automatic gas price provider (`AutomaticGasPriceProvider`)

State: the two lazily resolved tri-state support flags.  Environment: the
wrapped provider's responses — the `baseFeePerGas` field of the latest
block (`none` when the field is absent), the `eth_feeHistory` outcome as a
function of the requested reward percentiles, and the `eth_gasPrice`
outcome.  Every outcome that the code can observe as a thrown `Error` is an
`Except.error` carrying the message. -/

/-- `AutomaticGasPriceProvider.EIP1559_BASE_FEE_MAX_FULL_BLOCKS_PREFERENCE`. -/
def EIP1559_BASE_FEE_MAX_FULL_BLOCKS_PREFERENCE : Nat := 3

/-- `AutomaticGasPriceProvider.EIP1559_REWARD_PERCENTILE`. -/
def EIP1559_REWARD_PERCENTILE : Nat := 50

/-- An EIP-1559 fee value pair (`BN` values modelled as `Nat`). -/
structure FeeValues where
  maxFeePerGas : Nat
  maxPriorityFeePerGas : Nat
  deriving DecidableEq

/-- The fields of an `eth_feeHistory` response the code reads. -/
structure FeeHistoryResponse where
  baseFeePerGas : List String
  reward : List (List String)
  deriving DecidableEq

/-- The pricing-related RPC calls the provider can issue to the wrapped
provider while handling one send-transaction request. -/
inductive RpcCall where
  | getBlock
  | feeHistoryCall
  | gasPriceCall
  deriving DecidableEq

/-- Per-instance state: `_nodeHasFeeHistory` and `_nodeSupportsEIP1559`
(`none` models JavaScript `undefined`). -/
structure AGPState where
  nodeHasFeeHistory : Option Bool
  nodeSupportsEIP1559 : Option Bool
  deriving DecidableEq

/-- Responses of the wrapped provider for one request. -/
structure AGPEnv where
  latestBlockBaseFee : Except String (Option String)
  feeHistory : List Nat → Except String FeeHistoryResponse
  gasPrice : Except String String

/-- `AutomaticGasPriceProvider._suggestEip1559FeePriceValues`.  The
`eth_getBlockByNumber` detection call sits outside the `try`, so its error
propagates; everything inside the `try` (the `eth_feeHistory` call and the
decoding of `baseFeePerGas[1]` and `reward[0][0]`, whose absence makes the
decoder throw) is caught and permanently records fee-history as
unsupported.  `mul`/`div` on `BN` is exact integer arithmetic with floor
division. -/
def suggestEip1559FeePriceValues (st : AGPState) (env : AGPEnv) :
    Except String (Option FeeValues × AGPState × List RpcCall) :=
  let detect : Except String (Bool × AGPState × List RpcCall) :=
    match st.nodeSupportsEIP1559 with
    | some b => .ok (b, st, [])
    | none =>
      match env.latestBlockBaseFee with
      | .error e => .error e
      | .ok baseFeePerGas =>
        .ok (baseFeePerGas.isSome,
             { st with nodeSupportsEIP1559 := some baseFeePerGas.isSome },
             [.getBlock])
  match detect with
  | .error e => .error e
  | .ok (supportsEIP1559, st1, calls1) =>
    if st1.nodeHasFeeHistory = some false ∨ supportsEIP1559 = false then
      .ok (none, st1, calls1)
    else
      match env.feeHistory [EIP1559_REWARD_PERCENTILE] with
      | .ok response =>
        match response.baseFeePerGas.get? 1,
              (response.reward.get? 0).bind fun r => r.get? 0 with
        | some nextBaseFee, some reward =>
          .ok (some ⟨rpcQuantityToBN nextBaseFee *
                       9 ^ (EIP1559_BASE_FEE_MAX_FULL_BLOCKS_PREFERENCE - 1) /
                       8 ^ (EIP1559_BASE_FEE_MAX_FULL_BLOCKS_PREFERENCE - 1),
                     rpcQuantityToBN reward⟩,
               st1, calls1 ++ [.feeHistoryCall])
        | _, _ =>
          .ok (none, { st1 with nodeHasFeeHistory := some false },
               calls1 ++ [.feeHistoryCall])
      | .error _ =>
        .ok (none, { st1 with nodeHasFeeHistory := some false },
             calls1 ++ [.feeHistoryCall])

/-- The final `maxFeePerGas` before the invariant fix: the caller's value
when present, otherwise the suggested (or fallback) value. -/
def resolveMaxFeePerGas (suggested : FeeValues) (tx : Tx) : Nat :=
  match tx.maxFeePerGas with
  | some s => rpcQuantityToBN s
  | none => suggested.maxFeePerGas

/-- The final `maxPriorityFeePerGas`: the caller's value when present,
otherwise the suggested (or fallback) value. -/
def resolveMaxPriorityFeePerGas (suggested : FeeValues) (tx : Tx) : Nat :=
  match tx.maxPriorityFeePerGas with
  | some s => rpcQuantityToBN s
  | none => suggested.maxPriorityFeePerGas

/-- The write-back step of `AutomaticGasPriceProvider.request` (source lines
196-211): resolve both fee values, apply the `maxFeePerGas < maxPriority`
correction by addition, and store both fields on the transaction. -/
def applyFeeValues (suggested : FeeValues) (tx : Tx) : Tx :=
  let maxPriorityFeePerGas := resolveMaxPriorityFeePerGas suggested tx
  let maxFeePerGas0 := resolveMaxFeePerGas suggested tx
  let maxFeePerGas :=
    if maxFeePerGas0 < maxPriorityFeePerGas then maxFeePerGas0 + maxPriorityFeePerGas
    else maxFeePerGas0
  { tx with
    maxFeePerGas := some (numberToRpcQuantity maxFeePerGas),
    maxPriorityFeePerGas := some (numberToRpcQuantity maxPriorityFeePerGas) }

/-- `AutomaticGasPriceProvider.request`: the parameter list forwarded to the
wrapped provider, the updated state, and the pricing-related RPC calls
issued. -/
def agpRequest (st : AGPState) (env : AGPEnv) (method : String) (params : List Tx) :
    Except String (List Tx × AGPState × List RpcCall) :=
  if method ≠ "eth_sendTransaction" then .ok (params, st, [])
  else
    match params with
    | [] => .ok ([], st, [])
    | tx :: rest =>
      if tx.gasPrice.isSome ∨ (tx.maxFeePerGas.isSome ∧ tx.maxPriorityFeePerGas.isSome) then
        .ok (tx :: rest, st, [])
      else
        match suggestEip1559FeePriceValues st env with
        | .error e => .error e
        | .ok (suggested, st1, calls1) =>
          if tx.maxFeePerGas = none ∧ tx.maxPriorityFeePerGas = none ∧ suggested = none then
            match env.gasPrice with
            | .error e => .error e
            | .ok gp =>
              .ok ({ tx with gasPrice := some (numberToRpcQuantity (rpcQuantityToBN gp)) } :: rest,
                   st1, calls1 ++ [.gasPriceCall])
          else
            match suggested with
            | some suggestedValues =>
              .ok (applyFeeValues suggestedValues tx :: rest, st1, calls1)
            | none =>
              match env.gasPrice with
              | .error e => .error e
              | .ok gp =>
                .ok (applyFeeValues ⟨rpcQuantityToBN gp, rpcQuantityToBN gp⟩ tx :: rest,
                     st1, calls1 ++ [.gasPriceCall])

/-! ## Helper lemmas about the estimation cache -/

theorem mge_state_some (m : GasMultiplier) (env : MGEEnv) (v : Nat) :
    (getMultipliedGasEstimation m env (some v)).state = some v ∧
    (getMultipliedGasEstimation m env (some v)).blockFetches = 0 := by
  rcases env with ⟨est, gl⟩
  rcases est with s | e <;>
    simp only [getMultipliedGasEstimation, getBlockGasLimit] <;>
    split <;> simp

theorem runEstimations_some (m : GasMultiplier) (v : Nat) (envs : List MGEEnv) :
    runEstimations m (some v) envs = (some v, 0) := by
  induction envs with
  | nil => rfl
  | cons env envs ih =>
    rw [runEstimations]
    rw [(mge_state_some m env v).1, (mge_state_some m env v).2, ih]
    simp

theorem mge_none_trigger_false (m : GasMultiplier) (env : MGEEnv)
    (h : triggersFetch m env = false) :
    (getMultipliedGasEstimation m env none).state = none ∧
    (getMultipliedGasEstimation m env none).blockFetches = 0 := by
  rcases env with ⟨est, gl⟩
  rcases est with s | e <;>
    simp only [triggersFetch, bne_eq_false_iff_eq] at h <;>
    simp [getMultipliedGasEstimation, h]

theorem mge_none_trigger_true (m : GasMultiplier) (env : MGEEnv)
    (h : triggersFetch m env = true) :
    (getMultipliedGasEstimation m env none).state =
      some (rpcQuantityToNumber env.latestGasLimit * 95 / 100) ∧
    (getMultipliedGasEstimation m env none).blockFetches = 1 := by
  rcases env with ⟨est, gl⟩
  rcases est with s | e <;> simp only [triggersFetch, bne_iff_ne] at h <;>
    simp [getMultipliedGasEstimation, getBlockGasLimit, h]

/-! ## Claim theorems -/

/-- C6: when the configured gas multiplier equals exactly 1, the multiplied
gas estimation returns the raw remote estimate string unchanged, leaves the
cache untouched, and issues no block-gas-limit fetch. -/
theorem multiplierOne_passthrough (m : GasMultiplier) (env : MGEEnv) (st : Option Nat)
    (s : String) (_hden : 0 < m.den) (hm : m.num = m.den)
    (hok : env.estimateGas = .ok s) :
    getMultipliedGasEstimation m env st = ⟨.ok s, st, 0⟩ := by
  simp [getMultipliedGasEstimation, hok, hm]

theorem multiplierOne_passthrough_witness :
    0 < (⟨1, 1⟩ : GasMultiplier).den ∧
    getMultipliedGasEstimation ⟨1, 1⟩ ⟨.ok "0x5208", "0xd3"⟩ none =
      ⟨.ok "0x5208", none, 0⟩ :=
  ⟨by decide,
   multiplierOne_passthrough ⟨1, 1⟩ ⟨.ok "0x5208", "0xd3"⟩ none "0x5208"
     (by decide) rfl rfl⟩

/-- C1 counterexample: with multiplier 2 (strictly greater than 1), a
successful remote estimate of 0x64 = 100, and a latest block gas limit of
0xd3 = 211 (so the cached limit is `floor(211 * 0.95) = 200`), the
multiplied value is exactly the cached limit and is returned unclamped, so
the decoded result equals the cached limit and is NOT at most
`cachedBlockGasLimit - 1`. -/
theorem multipliedEstimation_can_equal_limit :
    ((⟨2, 1⟩ : GasMultiplier).den < (⟨2, 1⟩ : GasMultiplier).num ∧
      0 < (⟨2, 1⟩ : GasMultiplier).den) ∧
    (getMultipliedGasEstimation ⟨2, 1⟩ ⟨.ok "0x64", "0xd3"⟩ none).result =
      .ok (numberToRpcQuantity 200) ∧
    (getBlockGasLimit ⟨.ok "0x64", "0xd3"⟩ none).gasLimit = 200 ∧
    ¬ (rpcQuantityToNumber (numberToRpcQuantity 200) ≤
        (getBlockGasLimit ⟨.ok "0x64", "0xd3"⟩ none).gasLimit - 1) := by
  decide

/-- C1 (amended): for every multiplier strictly greater than 1 and every
successful remote estimation, the decoded gas value returned by the
multiplied gas estimation is at most the cached block gas limit (it can
equal the limit exactly, when the multiplied value neither exceeds nor
falls below it; only a multiplied value strictly above the limit is clamped
to `cachedBlockGasLimit - 1`). -/
theorem multipliedEstimation_le_blockGasLimit (m : GasMultiplier) (env : MGEEnv)
    (st : Option Nat) (s : String)
    (_hden : 0 < m.den) (hm : m.den < m.num) (hok : env.estimateGas = .ok s) :
    ∃ out, (getMultipliedGasEstimation m env st).result = .ok out ∧
      rpcQuantityToNumber out ≤ (getBlockGasLimit env st).gasLimit := by
  have hne : m.num = m.den → False := by omega
  refine ⟨numberToRpcQuantity
    (if (getBlockGasLimit env st).gasLimit < rpcQuantityToNumber s * m.num / m.den then
      (getBlockGasLimit env st).gasLimit - 1
     else rpcQuantityToNumber s * m.num / m.den), ?_, ?_⟩
  · simp only [getMultipliedGasEstimation, hok]
    rw [if_neg hne]
  · rw [rpcQuantity_roundtrip]
    split <;> omega

theorem multipliedEstimation_le_blockGasLimit_witness :
    0 < (⟨3, 2⟩ : GasMultiplier).den ∧
    (⟨3, 2⟩ : GasMultiplier).den < (⟨3, 2⟩ : GasMultiplier).num ∧
    ∃ out,
      (getMultipliedGasEstimation ⟨3, 2⟩ ⟨.ok "0x186a0", "0x1c9c380"⟩ none).result =
        .ok out ∧
      rpcQuantityToNumber out ≤
        (getBlockGasLimit ⟨.ok "0x186a0", "0x1c9c380"⟩ none).gasLimit :=
  ⟨by decide, by decide,
   multipliedEstimation_le_blockGasLimit ⟨3, 2⟩ ⟨.ok "0x186a0", "0x1c9c380"⟩ none
     "0x186a0" (by decide) (by decide) rfl⟩

/-- C2: if the remote estimation call fails with an error whose message
contains "execution error" case-insensitively, the estimation returns
exactly the cached block gas limit encoded as a quantity; any other error
propagates unchanged (and no block fetch happens). -/
theorem estimationError_handling (m : GasMultiplier) (env : MGEEnv) (st : Option Nat)
    (e : String) (herr : env.estimateGas = .error e) :
    (jsIncludes (lowerString e) "execution error" = true →
      getMultipliedGasEstimation m env st =
        ⟨.ok (numberToRpcQuantity (getBlockGasLimit env st).gasLimit),
         (getBlockGasLimit env st).state, (getBlockGasLimit env st).fetches⟩) ∧
    (jsIncludes (lowerString e) "execution error" = false →
      getMultipliedGasEstimation m env st = ⟨.error e, st, 0⟩) := by
  constructor <;> intro h <;> simp [getMultipliedGasEstimation, herr, h]

theorem estimationError_handling_witness :
    jsIncludes (lowerString "VM Exception: Execution Error: reverted")
      "execution error" = true ∧
    getMultipliedGasEstimation ⟨2, 1⟩
      ⟨.error "VM Exception: Execution Error: reverted", "0xd3"⟩ none =
      ⟨.ok (numberToRpcQuantity
          (getBlockGasLimit ⟨.error "VM Exception: Execution Error: reverted", "0xd3"⟩
            none).gasLimit),
       (getBlockGasLimit ⟨.error "VM Exception: Execution Error: reverted", "0xd3"⟩
         none).state,
       (getBlockGasLimit ⟨.error "VM Exception: Execution Error: reverted", "0xd3"⟩
         none).fetches⟩ :=
  ⟨by decide,
   (estimationError_handling ⟨2, 1⟩
     ⟨.error "VM Exception: Execution Error: reverted", "0xd3"⟩ none
     "VM Exception: Execution Error: reverted" rfl).1 (by decide)⟩

/-- C4: starting from an empty cache, a sequence of estimation requests to
one instance issues at most one block-limit fetch; the final cache is empty
when no request consulted the limit, and otherwise holds
`floor(observedGasLimit * 0.95)` for the gas limit observed by the first
request that consulted it; a populated cache is never refreshed (any run
from a populated cache keeps the value and fetches nothing). -/
theorem blockGasLimit_cache (m : GasMultiplier) (envs : List MGEEnv) :
    (runEstimations m none envs).2 ≤ 1 ∧
    (runEstimations m none envs).1 =
      (envs.find? (triggersFetch m)).map
        (fun env => rpcQuantityToNumber env.latestGasLimit * 95 / 100) ∧
    ∀ v, runEstimations m (some v) envs = (some v, 0) := by
  have main : (runEstimations m none envs).2 ≤ 1 ∧
      (runEstimations m none envs).1 =
        (envs.find? (triggersFetch m)).map
          (fun env => rpcQuantityToNumber env.latestGasLimit * 95 / 100) := by
    induction envs with
    | nil => simp [runEstimations]
    | cons env envs ih =>
      by_cases h : triggersFetch m env
      · rw [runEstimations, (mge_none_trigger_true m env h).1,
          (mge_none_trigger_true m env h).2, runEstimations_some,
          List.find?_cons_of_pos _ h]
        simp
      · rw [runEstimations, (mge_none_trigger_false m env (by simpa using h)).1,
          (mge_none_trigger_false m env (by simpa using h)).2,
          List.find?_cons_of_neg _ (by simpa using h)]
        simpa using ih
  exact ⟨main.1, main.2, fun v => runEstimations_some m v envs⟩
/-- C3: reaching the fee-history call (fee-market support resolved or
detected as present, fee history not known unsupported), a successful
response with `baseFeePerGas = [b0, b1]` and `reward = [[r]]` yields
`maxPriorityFeePerGas = r` and `maxFeePerGas = floor(b1 * 81 / 64)`
(that is `b1 * 9^(N-1) / 8^(N-1)` with full-blocks preference `N = 3`),
in exact integer arithmetic. -/
theorem feeHistory_projection (st : AGPState) (env : AGPEnv) (b0 b1 r : String)
    (hfh : st.nodeHasFeeHistory ≠ some false)
    (hsup : st.nodeSupportsEIP1559 = some true ∨
      (st.nodeSupportsEIP1559 = none ∧ ∃ bf, env.latestBlockBaseFee = .ok (some bf)))
    (hresp : env.feeHistory [EIP1559_REWARD_PERCENTILE] = .ok ⟨[b0, b1], [[r]]⟩) :
    ∃ st' calls,
      suggestEip1559FeePriceValues st env =
        .ok (some ⟨rpcQuantityToBN b1 * 81 / 64, rpcQuantityToBN r⟩, st', calls) := by
  have hpow : rpcQuantityToBN b1 *
      9 ^ (EIP1559_BASE_FEE_MAX_FULL_BLOCKS_PREFERENCE - 1) /
      8 ^ (EIP1559_BASE_FEE_MAX_FULL_BLOCKS_PREFERENCE - 1) =
      rpcQuantityToBN b1 * 81 / 64 := by
    norm_num [EIP1559_BASE_FEE_MAX_FULL_BLOCKS_PREFERENCE]
  rcases hsup with hsup | ⟨hsup, bf, hbf⟩
  · refine ⟨st, [.feeHistoryCall], ?_⟩
    simp [suggestEip1559FeePriceValues, hsup, hfh, hresp, hpow]
  · refine ⟨{ st with nodeSupportsEIP1559 := some true },
      [.getBlock, .feeHistoryCall], ?_⟩
    simp [suggestEip1559FeePriceValues, hsup, hbf, hfh, hresp, hpow]

theorem feeHistory_projection_witness :
    rpcQuantityToBN "0x64" * 81 / 64 = 126 ∧ rpcQuantityToBN "0x5" = 5 ∧
    ∃ st' calls,
      suggestEip1559FeePriceValues ⟨none, none⟩
        ⟨.ok (some "0x7"), fun _ => .ok ⟨["0x1", "0x64"], [["0x5"]]⟩, .ok "0x3"⟩ =
        .ok (some ⟨rpcQuantityToBN "0x64" * 81 / 64, rpcQuantityToBN "0x5"⟩, st', calls) :=
  ⟨by decide, by decide,
   feeHistory_projection ⟨none, none⟩
     ⟨.ok (some "0x7"), fun _ => .ok ⟨["0x1", "0x64"], [["0x5"]]⟩, .ok "0x3"⟩
     "0x1" "0x64" "0x5" (by decide) (.inr ⟨rfl, "0x7", rfl⟩) rfl⟩

/-- C5: in the automatic gas price policy, whenever the resolved
`maxFeePerGas` is strictly less than the resolved `maxPriorityFeePerGas`,
the transaction is forwarded with `maxFeePerGas` set to the sum of the two
values and `maxPriorityFeePerGas` written back unchanged. -/
theorem feeInvariant_sum (st : AGPState) (env : AGPEnv) (tx : Tx) (rest : List Tx)
    (sugg : FeeValues) (st1 : AGPState) (calls1 : List RpcCall)
    (hgp : tx.gasPrice = none)
    (hnotboth : tx.maxFeePerGas = none ∨ tx.maxPriorityFeePerGas = none)
    (hsugg : suggestEip1559FeePriceValues st env = .ok (some sugg, st1, calls1))
    (hlt : resolveMaxFeePerGas sugg tx < resolveMaxPriorityFeePerGas sugg tx) :
    agpRequest st env "eth_sendTransaction" (tx :: rest) =
      .ok (applyFeeValues sugg tx :: rest, st1, calls1) ∧
    (applyFeeValues sugg tx).maxFeePerGas =
      some (numberToRpcQuantity
        (resolveMaxFeePerGas sugg tx + resolveMaxPriorityFeePerGas sugg tx)) ∧
    (applyFeeValues sugg tx).maxPriorityFeePerGas =
      some (numberToRpcQuantity (resolveMaxPriorityFeePerGas sugg tx)) := by
  refine ⟨?_, ?_, ?_⟩
  · have hcond : ¬ (tx.gasPrice.isSome ∨
        (tx.maxFeePerGas.isSome ∧ tx.maxPriorityFeePerGas.isSome)) := by
      rcases hnotboth with h | h <;> simp [hgp, h]
    simp [agpRequest, hcond, hsugg]
  · simp [applyFeeValues, hlt]
  · simp [applyFeeValues]

theorem feeInvariant_sum_witness :
    agpRequest ⟨none, some true⟩
      ⟨.ok (some "0x7"), fun _ => .ok ⟨["0x1", "0x64"], [["0x5"]]⟩, .ok "0x3"⟩
      "eth_sendTransaction" [⟨none, none, some "0x1", none⟩] =
      .ok (applyFeeValues ⟨126, 5⟩ ⟨none, none, some "0x1", none⟩ :: [],
        ⟨none, some true⟩, [.feeHistoryCall]) ∧
    (applyFeeValues ⟨126, 5⟩ ⟨none, none, some "0x1", none⟩).maxFeePerGas =
      some (numberToRpcQuantity
        (resolveMaxFeePerGas ⟨126, 5⟩ ⟨none, none, some "0x1", none⟩ +
          resolveMaxPriorityFeePerGas ⟨126, 5⟩ ⟨none, none, some "0x1", none⟩)) ∧
    (applyFeeValues ⟨126, 5⟩ ⟨none, none, some "0x1", none⟩).maxPriorityFeePerGas =
      some (numberToRpcQuantity
        (resolveMaxPriorityFeePerGas ⟨126, 5⟩ ⟨none, none, some "0x1", none⟩)) :=
  feeInvariant_sum ⟨none, some true⟩
    ⟨.ok (some "0x7"), fun _ => .ok ⟨["0x1", "0x64"], [["0x5"]]⟩, .ok "0x3"⟩
    ⟨none, none, some "0x1", none⟩ [] ⟨126, 5⟩ ⟨none, some true⟩ [.feeHistoryCall]
    rfl (.inr rfl) (by decide) (by decide)

/-- C7: a send-transaction request whose transaction already specifies
`gasPrice`, or both `maxFeePerGas` and `maxPriorityFeePerGas`, is forwarded
with the parameter list entirely unchanged — even when the supplied
`maxFeePerGas` is less than the supplied `maxPriorityFeePerGas` — with no
pricing-related RPC call issued and the state untouched. -/
theorem fullySpecified_passthrough (st : AGPState) (env : AGPEnv) (tx : Tx)
    (rest : List Tx)
    (h : tx.gasPrice.isSome = true ∨
      (tx.maxFeePerGas.isSome = true ∧ tx.maxPriorityFeePerGas.isSome = true)) :
    agpRequest st env "eth_sendTransaction" (tx :: rest) = .ok (tx :: rest, st, []) := by
  have hcond : tx.gasPrice.isSome ∨
      (tx.maxFeePerGas.isSome ∧ tx.maxPriorityFeePerGas.isSome) := by
    rcases h with h | ⟨h1, h2⟩
    · exact Or.inl h
    · exact Or.inr ⟨h1, h2⟩
  simp [agpRequest, hcond]

theorem fullySpecified_passthrough_witness :
    (⟨none, none, some "0x1", some "0x5"⟩ : Tx).maxFeePerGas.isSome = true ∧
    (⟨none, none, some "0x1", some "0x5"⟩ : Tx).maxPriorityFeePerGas.isSome = true ∧
    rpcQuantityToBN "0x1" < rpcQuantityToBN "0x5" ∧
    agpRequest ⟨none, none⟩
      ⟨.error "never called", fun _ => .error "never called", .error "never called"⟩
      "eth_sendTransaction" [⟨none, none, some "0x1", some "0x5"⟩] =
      .ok ([⟨none, none, some "0x1", some "0x5"⟩], ⟨none, none⟩, []) :=
  ⟨rfl, rfl, by decide,
   fullySpecified_passthrough ⟨none, none⟩
     ⟨.error "never called", fun _ => .error "never called", .error "never called"⟩
     ⟨none, none, some "0x1", some "0x5"⟩ [] (.inr ⟨rfl, rfl⟩)⟩

/-- C8: when the caller supplies only `maxFeePerGas` (no `gasPrice`, no
`maxPriorityFeePerGas`) and the suggested `maxPriorityFeePerGas` exceeds
the caller's decoded value, the forwarded transaction stores
`maxFeePerGas` as the sum of the caller's value and the suggested priority
fee — a different quantity than the caller supplied, so the partially
user-specified value is not preserved. -/
theorem partialUserValue_overwritten (st : AGPState) (env : AGPEnv) (rest : List Tx)
    (tx : Tx) (s : String) (sugg : FeeValues) (st1 : AGPState) (calls1 : List RpcCall)
    (hgp : tx.gasPrice = none) (hmf : tx.maxFeePerGas = some s)
    (hmp : tx.maxPriorityFeePerGas = none)
    (hsugg : suggestEip1559FeePriceValues st env = .ok (some sugg, st1, calls1))
    (hlt : rpcQuantityToBN s < sugg.maxPriorityFeePerGas) :
    agpRequest st env "eth_sendTransaction" (tx :: rest) =
      .ok (applyFeeValues sugg tx :: rest, st1, calls1) ∧
    (applyFeeValues sugg tx).maxFeePerGas =
      some (numberToRpcQuantity (rpcQuantityToBN s + sugg.maxPriorityFeePerGas)) ∧
    (applyFeeValues sugg tx).maxFeePerGas ≠ tx.maxFeePerGas := by
  have hres : resolveMaxFeePerGas sugg tx = rpcQuantityToBN s := by
    simp [resolveMaxFeePerGas, hmf]
  have hres' : resolveMaxPriorityFeePerGas sugg tx = sugg.maxPriorityFeePerGas := by
    simp [resolveMaxPriorityFeePerGas, hmp]
  have happly : (applyFeeValues sugg tx).maxFeePerGas =
      some (numberToRpcQuantity (rpcQuantityToBN s + sugg.maxPriorityFeePerGas)) := by
    simp only [applyFeeValues, hres, hres']
    rw [if_pos hlt]
  refine ⟨?_, happly, ?_⟩
  · have hcond : ¬ (tx.gasPrice.isSome ∨
        (tx.maxFeePerGas.isSome ∧ tx.maxPriorityFeePerGas.isSome)) := by
      simp [hgp, hmp]
    simp [agpRequest, hcond, hsugg]
  · rw [happly, hmf]
    intro hcontra
    have hs : numberToRpcQuantity (rpcQuantityToBN s + sugg.maxPriorityFeePerGas) = s :=
      Option.some_injective _ hcontra
    have : rpcQuantityToBN s = rpcQuantityToBN s + sugg.maxPriorityFeePerGas := by
      conv_lhs => rw [← hs]
      rw [rpcQuantityToBN, rpcQuantity_roundtrip]
    omega

theorem partialUserValue_overwritten_witness :
    agpRequest ⟨none, some true⟩
      ⟨.ok (some "0x7"), fun _ => .ok ⟨["0x1", "0x64"], [["0x5"]]⟩, .ok "0x3"⟩
      "eth_sendTransaction" [⟨none, none, some "0x2", none⟩] =
      .ok (applyFeeValues ⟨126, 5⟩ ⟨none, none, some "0x2", none⟩ :: [],
        ⟨none, some true⟩, [.feeHistoryCall]) ∧
    (applyFeeValues ⟨126, 5⟩ ⟨none, none, some "0x2", none⟩).maxFeePerGas =
      some (numberToRpcQuantity (rpcQuantityToBN "0x2" + 5)) ∧
    (applyFeeValues ⟨126, 5⟩ ⟨none, none, some "0x2", none⟩).maxFeePerGas ≠
      (⟨none, none, some "0x2", none⟩ : Tx).maxFeePerGas :=
  partialUserValue_overwritten ⟨none, some true⟩
    ⟨.ok (some "0x7"), fun _ => .ok ⟨["0x1", "0x64"], [["0x5"]]⟩, .ok "0x3"⟩
    [] ⟨none, none, some "0x2", none⟩ "0x2" ⟨126, 5⟩ ⟨none, some true⟩
    [.feeHistoryCall] rfl rfl rfl (by decide) (by decide)

/-- C9: on a send-transaction request with a first parameter, the fixed gas
price policy sets `gasPrice` to the configured constant encoded as a
quantity exactly when `gasPrice`, `maxFeePerGas` and `maxPriorityFeePerGas`
are all absent; when any of the three is present the parameters are
forwarded unchanged. -/
theorem fixedGasPrice_policy (gp : Nat) (tx : Tx) (rest : List Tx) :
    (tx.gasPrice = none ∧ tx.maxFeePerGas = none ∧ tx.maxPriorityFeePerGas = none →
      fixedGasPriceRequest gp "eth_sendTransaction" (tx :: rest) =
        { tx with gasPrice := some (numberToRpcQuantity gp) } :: rest) ∧
    (¬ (tx.gasPrice = none ∧ tx.maxFeePerGas = none ∧ tx.maxPriorityFeePerGas = none) →
      fixedGasPriceRequest gp "eth_sendTransaction" (tx :: rest) = tx :: rest) := by
  constructor <;> intro h
  · simp [fixedGasPriceRequest, h.1, h.2.1, h.2.2]
  · simp [fixedGasPriceRequest, h]

theorem fixedGasPrice_policy_witness :
    fixedGasPriceRequest 7 "eth_sendTransaction" [⟨none, none, none, none⟩] =
      [⟨none, some (numberToRpcQuantity 7), none, none⟩] ∧
    fixedGasPriceRequest 7 "eth_sendTransaction" [⟨none, none, none, some "0x5"⟩] =
      [⟨none, none, none, some "0x5"⟩] :=
  ⟨(fixedGasPrice_policy 7 ⟨none, none, none, none⟩ []).1 ⟨rfl, rfl, rfl⟩,
   (fixedGasPrice_policy 7 ⟨none, none, none, some "0x5"⟩ []).2 (by simp)⟩

/-- C10: only a fee-history failure is treated as non-fatal — it returns no
suggestion and permanently records fee-history as unsupported, so later
projections return no suggestion without issuing any RPC call — while a
failure of the latest-block lookup used for EIP-1559 support detection is
not caught and propagates as an error. -/
theorem featureDetection_error_asymmetry (st : AGPState) (env : AGPEnv) (e : String) :
    (st.nodeSupportsEIP1559 = some true → st.nodeHasFeeHistory ≠ some false →
      env.feeHistory [EIP1559_REWARD_PERCENTILE] = .error e →
      suggestEip1559FeePriceValues st env =
        .ok (none, { st with nodeHasFeeHistory := some false }, [.feeHistoryCall]) ∧
      ∀ env2, suggestEip1559FeePriceValues { st with nodeHasFeeHistory := some false } env2 =
        .ok (none, { st with nodeHasFeeHistory := some false }, [])) ∧
    (st.nodeSupportsEIP1559 = none → env.latestBlockBaseFee = .error e →
      suggestEip1559FeePriceValues st env = .error e) := by
  constructor
  · intro hsup hfh herr
    constructor
    · simp [suggestEip1559FeePriceValues, hsup, hfh, herr]
    · intro env2
      simp [suggestEip1559FeePriceValues, hsup]
  · intro hsup hberr
    simp [suggestEip1559FeePriceValues, hsup, hberr]

theorem featureDetection_error_asymmetry_witness :
    suggestEip1559FeePriceValues ⟨none, some true⟩
      ⟨.ok none, fun _ => .error "eth_feeHistory not available", .ok "0x1"⟩ =
      .ok (none, ⟨some false, some true⟩, [.feeHistoryCall]) ∧
    suggestEip1559FeePriceValues ⟨some false, some true⟩
      ⟨.ok (some "0x7"), fun _ => .ok ⟨["0x1", "0x64"], [["0x5"]]⟩, .ok "0x3"⟩ =
      .ok (none, ⟨some false, some true⟩, []) ∧
    suggestEip1559FeePriceValues ⟨none, none⟩
      ⟨.error "block lookup failed", fun _ => .ok ⟨["0x1", "0x64"], [["0x5"]]⟩, .ok "0x3"⟩ =
      .error "block lookup failed" :=
  ⟨((featureDetection_error_asymmetry ⟨none, some true⟩
      ⟨.ok none, fun _ => .error "eth_feeHistory not available", .ok "0x1"⟩
      "eth_feeHistory not available").1 rfl (by decide) rfl).1,
   ((featureDetection_error_asymmetry ⟨none, some true⟩
      ⟨.ok none, fun _ => .error "eth_feeHistory not available", .ok "0x1"⟩
      "eth_feeHistory not available").1 rfl (by decide) rfl).2
     ⟨.ok (some "0x7"), fun _ => .ok ⟨["0x1", "0x64"], [["0x5"]]⟩, .ok "0x3"⟩,
   (featureDetection_error_asymmetry ⟨none, none⟩
      ⟨.error "block lookup failed", fun _ => .ok ⟨["0x1", "0x64"], [["0x5"]]⟩, .ok "0x3"⟩
      "block lookup failed").2 rfl rfl⟩
